import Mathlib

/-!
Shallow embedding of `src/src/App.tsx` (client-side video trim editor).

The source file contains two variants of the same React component (an
earlier one loading the FFmpeg core from a CDN, a later one loading it
from a self-hosted path); apart from the FFmpeg base URL and view markup
the state-handling functions are identical in the two variants, so they
are embedded once.  React `useState` state is modelled as a `Session`
record, each handler as a pure function from the session (plus the
inputs the browser environment supplies) to the settled session together
with the list of side effects it performed.  Slider values and durations
are modelled as rationals (the TS numbers, with step 0.1 on the range
inputs, are exact at the granularity the claims need).
-/

/-- A user-chosen file: `File` in the source, with `name`, `size` and
declared MIME `type` (field `fileType` here, since the TS field is
called `type`). -/
structure VFile where
  name : String
  size : Nat
  fileType : String
deriving Repr, DecidableEq

/-- The component state: the eight `useState` hooks of `App`
(`currentFile`, `currentUrl`, `videoDuration`, `startTime`, `endTime`,
`loading`, `showTrimControls`, `showActions`).  Object URLs are
modelled as natural-number tokens. -/
structure Session where
  currentFile : Option VFile
  currentUrl : Option Nat
  videoDuration : ℚ
  startTime : ℚ
  endTime : ℚ
  loading : Bool
  showTrimControls : Bool
  showActions : Bool
deriving Repr, DecidableEq

/-- The initial state of every hook: no file, no URL, duration 0,
bounds 0 / 100, all flags false. -/
def initialSession : Session :=
  { currentFile := none
    currentUrl := none
    videoDuration := 0
    startTime := 0
    endTime := 100
    loading := false
    showTrimControls := false
    showActions := false }

/-- Side effects a handler performs on the browser environment. -/
inductive Effect where
  | revokeURL (u : Nat)
  | createURL (u : Nat)
  | clearInputValue
  | alert (msg : String)
  | seek (t : ℚ)
  | saveAs (name : String)
  | shareFiles (name : String)
deriving Repr, DecidableEq

/-- Whether an effect triggers a client-side save (an anchor-click
download). -/
def Effect.isSave : Effect → Bool
  | .saveAs _ => true
  | _ => false

/-- `String.startsWith`, computed on the underlying character list (the
builtin uses byte-position loops that do not reduce in the kernel; this
definition has the same semantics and evaluates on literals). -/
def strStartsWith (s p : String) : Bool :=
  s.data.take p.data.length == p.data

/-- `handleStartTimeChange(value)`: if `value >= endTime` store
`endTime - 1`, else store `value`; then (when the video ref is present)
seek the preview to `(value / 100) * videoDuration`.  No clamping of
`value` into `[0,100]` appears in the source. -/
def handleStartTimeChange (s : Session) (value : ℚ) (refPresent : Bool) :
    Session × List Effect :=
  let s' := if value ≥ s.endTime
    then { s with startTime := s.endTime - 1 }
    else { s with startTime := value }
  (s', if refPresent then [Effect.seek (value / 100 * s.videoDuration)] else [])

/-- `handleEndTimeChange(value)`: if `value <= startTime` store
`startTime + 1`, else store `value`; then (when the video ref is
present) seek the preview to `(value / 100) * videoDuration`. -/
def handleEndTimeChange (s : Session) (value : ℚ) (refPresent : Bool) :
    Session × List Effect :=
  let s' := if value ≤ s.startTime
    then { s with endTime := s.startTime + 1 }
    else { s with endTime := value }
  (s', if refPresent then [Effect.seek (value / 100 * s.videoDuration)] else [])

/-- `handleFileChange`: if a file is given and its declared type starts
with `video/`, set `currentFile`, revoke the previous object URL if
any, create a fresh one (`freshUrl`, supplied by the environment), and
show the actions; otherwise alert and change nothing. -/
def handleFileChange (s : Session) (file : Option VFile) (freshUrl : Nat) :
    Session × List Effect :=
  match file with
  | some f =>
    if strStartsWith f.fileType "video/" then
      ({ s with currentFile := some f, currentUrl := some freshUrl, showActions := true },
        (match s.currentUrl with
          | some u => [Effect.revokeURL u]
          | none => []) ++ [Effect.createURL freshUrl])
    else (s, [Effect.alert "Please select a valid video file"])
  | none => (s, [Effect.alert "Please select a valid video file"])

/-- `handleLoadedMetadata`: when the video ref is present, set
`videoDuration` from the element, show the trim controls and set
`endTime = 100`.  `startTime` is not touched by this handler. -/
def handleLoadedMetadata (s : Session) (refPresent : Bool) (d : ℚ) : Session :=
  if refPresent then
    { s with videoDuration := d, showTrimControls := true, endTime := 100 }
  else s

/-- `handleClear`: revoke the current object URL if present, clear the
file-input value, and reset `currentFile`, `currentUrl`,
`videoDuration`, `startTime`, `endTime`, `showActions`,
`showTrimControls`.  (`loading` is not written by this handler.) -/
def handleClear (s : Session) : Session × List Effect :=
  ({ s with
      currentFile := none
      currentUrl := none
      videoDuration := 0
      startTime := 0
      endTime := 100
      showActions := false
      showTrimControls := false },
    (match s.currentUrl with
      | some u => [Effect.revokeURL u]
      | none => []) ++ [Effect.clearInputValue])

/-- A sample video-typed file used for concrete evaluations. -/
def sampleVideo : VFile := { name := "clip.mp4", size := 1048576, fileType := "video/mp4" }

/-- The base location of the FFmpeg core in the first (CDN) variant of
`loadFFmpeg` in the source. -/
def cdnBaseURL : String := "https://cdn.jsdelivr.net/npm/@ffmpeg/core@0.12.6/dist/esm"

/-- The base location of the FFmpeg core in the second (self-hosted)
variant of `loadFFmpeg` in the source. -/
def selfHostedBaseURL : String := "/ffmpeg"

/-- A URL string is same-origin when it is a path-absolute reference
(starts with a single `/`), as opposed to an absolute URL naming a
third-party host. -/
def isSameOriginURL (u : String) : Bool :=
  strStartsWith u "/" && !(strStartsWith u "//")

/-- The base locations the CDN variant of `loadFFmpeg` attempts when no
cached handle exists: exactly one attempt, against the CDN, with no
fallback. -/
def loadAttemptsCdnVariant : List String := [cdnBaseURL]

/-- The base locations the self-hosted variant of `loadFFmpeg` attempts
when no cached handle exists: exactly one attempt, same-origin, with no
fallback. -/
def loadAttemptsSelfHostedVariant : List String := [selfHostedBaseURL]

/-- Outcome of one environment interaction during a trim/share run:
whether `loadFFmpeg` resolves, whether `fetchFile`/`writeFile` resolve,
the exit code `ffmpeg.exec` returns, what `readFile('output.mp4')`
yields (`none` = it rejects, `some bytes` otherwise), whether
`navigator.share` exists and `canShare` accepts the file payload, and
whether the `navigator.share` promise resolves. -/
structure EngineEnv where
  loadOk : Bool
  writeOk : Bool
  exitCode : Int
  readResult : Option (List Nat)
  shareSupported : Bool
  shareResolves : Bool
deriving Repr, DecidableEq

/-- How one invocation of `handleTrim` / `handleShare` settles. -/
inductive Outcome where
  | noFile
  | errorSurfaced (msg : String)
  | delivered
deriving Repr, DecidableEq

/-- Whether an outcome is a surfaced error (the `catch` branch ran and
alerted the user). -/
def Outcome.isError : Outcome → Bool
  | .errorSurfaced _ => true
  | _ => false

/-- The observable result of one `handleTrim` / `handleShare` call:
the settled session, whether `setLoading(true)` ran, whether
`ffmpeg.exec` was dispatched, how the call settled and the delivery /
alert effects it performed. -/
structure TrimRun where
  session : Session
  setLoadingTrue : Bool
  engineInvoked : Bool
  outcome : Outcome
  effects : List Effect
deriving Repr, DecidableEq

/-- `handleTrim`: returns at once when `currentFile` is null (nothing
else is checked before `setLoading(true)`); otherwise sets `loading`,
loads FFmpeg, writes the input, runs `exec`, throws on a non-zero exit
code, reads `output.mp4`, throws when the data is empty, else triggers
a download; the `finally` block clears `loading` on every path. -/
def handleTrim (s : Session) (env : EngineEnv) : TrimRun :=
  match s.currentFile with
  | none =>
    { session := s, setLoadingTrue := false, engineInvoked := false
      outcome := Outcome.noFile, effects := [] }
  | some f =>
    let settled := { s with loading := false }
    if env.loadOk then
      if env.writeOk then
        if env.exitCode ≠ 0 then
          { session := settled, setLoadingTrue := true, engineInvoked := true
            outcome := Outcome.errorSurfaced "FFmpeg failed with nonzero exit code"
            effects := [Effect.alert "Error trimming video"] }
        else
          match env.readResult with
          | none =>
            { session := settled, setLoadingTrue := true, engineInvoked := true
              outcome := Outcome.errorSurfaced "readFile rejected"
              effects := [Effect.alert "Error trimming video"] }
          | some data =>
            if data.length = 0 then
              { session := settled, setLoadingTrue := true, engineInvoked := true
                outcome := Outcome.errorSurfaced "Output file is empty"
                effects := [Effect.alert "Error trimming video"] }
            else
              { session := settled, setLoadingTrue := true, engineInvoked := true
                outcome := Outcome.delivered
                effects := [Effect.saveAs ("trimmed-" ++ f.name)] }
      else
        { session := settled, setLoadingTrue := true, engineInvoked := false
          outcome := Outcome.errorSurfaced "write failed"
          effects := [Effect.alert "Error trimming video"] }
    else
      { session := settled, setLoadingTrue := true, engineInvoked := false
        outcome := Outcome.errorSurfaced "FFmpeg load failed"
        effects := [Effect.alert "Error trimming video"] }

/-- `handleShare`: returns at once when `currentFile` is null;
otherwise sets `loading`, loads FFmpeg, writes the input, runs `exec`
WITHOUT inspecting its exit code, reads `output.mp4`, throws when the
data is empty, then either shares (when `navigator.share` exists and
`canShare` accepts the payload — a rejected share promise lands in the
`catch` branch and only alerts) or alerts and falls back to a
client-side save; the `finally` block clears `loading` on every path. -/
def handleShare (s : Session) (env : EngineEnv) : TrimRun :=
  match s.currentFile with
  | none =>
    { session := s, setLoadingTrue := false, engineInvoked := false
      outcome := Outcome.noFile, effects := [] }
  | some f =>
    let settled := { s with loading := false }
    if env.loadOk then
      if env.writeOk then
        match env.readResult with
        | none =>
          { session := settled, setLoadingTrue := true, engineInvoked := true
            outcome := Outcome.errorSurfaced "readFile rejected"
            effects := [Effect.alert "Error"] }
        | some data =>
          if data.length = 0 then
            { session := settled, setLoadingTrue := true, engineInvoked := true
              outcome := Outcome.errorSurfaced "Output file is empty"
              effects := [Effect.alert "Error"] }
          else
            if env.shareSupported then
              if env.shareResolves then
                { session := settled, setLoadingTrue := true, engineInvoked := true
                  outcome := Outcome.delivered
                  effects := [Effect.shareFiles ("trimmed-" ++ f.name)] }
              else
                { session := settled, setLoadingTrue := true, engineInvoked := true
                  outcome := Outcome.errorSurfaced "share rejected"
                  effects := [Effect.alert "Error"] }
            else
              { session := settled, setLoadingTrue := true, engineInvoked := true
                outcome := Outcome.delivered
                effects := [Effect.alert "Share not supported. Video will download instead.",
                  Effect.saveAs ("trimmed-" ++ f.name)] }
      else
        { session := settled, setLoadingTrue := true, engineInvoked := false
          outcome := Outcome.errorSurfaced "write failed"
          effects := [Effect.alert "Error"] }
    else
      { session := settled, setLoadingTrue := true, engineInvoked := false
        outcome := Outcome.errorSurfaced "FFmpeg load failed"
        effects := [Effect.alert "Error"] }

/-- An environment in which every interaction succeeds. -/
def okEnv : EngineEnv :=
  { loadOk := true, writeOk := true, exitCode := 0
    readResult := some [1, 2, 3], shareSupported := true, shareResolves := true }

/-- A session with a video selected, metadata loaded and no operation
in flight. -/
def readySession : Session :=
  { currentFile := some sampleVideo
    currentUrl := some 0
    videoDuration := 120
    startTime := 25
    endTime := 75
    loading := false
    showTrimControls := true
    showActions := true }

/-- A session with a video selected and a trim/share operation already
in flight. -/
def busySession : Session := { readySession with loading := true }

/-- Helper: `handleTrim` dispatches `ffmpeg.exec` exactly when a file is
present and both the FFmpeg load and the input write succeed; no other
component of the state (in particular not `loading`) is consulted. -/
theorem handleTrim_engineInvoked_eq (s : Session) (env : EngineEnv) :
    (handleTrim s env).engineInvoked =
      (s.currentFile.isSome && env.loadOk && env.writeOk) := by
  obtain ⟨file, url, dur, st, et, ld, c, a⟩ := s
  obtain ⟨lo, wo, ec, rr, ssup, sres⟩ := env
  cases file <;> cases lo <;> cases wo <;> rcases rr with _ | data <;>
    simp only [handleTrim] <;>
    first
      | rfl
      | (split_ifs <;> rfl)

/-- Helper: `handleShare` dispatches `ffmpeg.exec` exactly when a file
is present and both the FFmpeg load and the input write succeed; no
other component of the state (in particular not `loading`) is
consulted. -/
theorem handleShare_engineInvoked_eq (s : Session) (env : EngineEnv) :
    (handleShare s env).engineInvoked =
      (s.currentFile.isSome && env.loadOk && env.writeOk) := by
  obtain ⟨file, url, dur, st, et, ld, c, a⟩ := s
  obtain ⟨lo, wo, ec, rr, ssup, sres⟩ := env
  cases file <;> cases lo <;> cases wo <;> rcases rr with _ | data <;>
    simp only [handleShare] <;>
    first
      | rfl
      | (split_ifs <;> rfl)

/-- C1 (counterexample): starting from the initial state, which
satisfies `0 ≤ startFraction < endFraction ≤ 100`, a single call
`handleStartTimeChange(-5)` stores `-5`: the setter does not clamp its
input into `[0,100]`, and the invariant's lower bound is violated. -/
theorem c1_counterexample :
    (0 ≤ initialSession.startTime ∧ initialSession.startTime < initialSession.endTime ∧
      initialSession.endTime ≤ 100) ∧
    (handleStartTimeChange initialSession (-5) true).1.startTime = -5 ∧
    ¬ 0 ≤ (handleStartTimeChange initialSession (-5) true).1.startTime := by
  refine ⟨⟨le_refl _, ?_, le_refl _⟩, rfl, ?_⟩
  · show (0 : ℚ) < 100
    norm_num
  · show ¬ (0 : ℚ) ≤ -5
    norm_num

/-- C1 (amended): the setters do not clamp, so of the claimed
invariant only the strict-order part survives: every call to
`handleStartTimeChange` or `handleEndTimeChange`, with an arbitrary
rational input, preserves `startFraction < endFraction`. -/
theorem c1_strict_order_preserved (s : Session) (v : ℚ) (r : Bool)
    (h : s.startTime < s.endTime) :
    (handleStartTimeChange s v r).1.startTime <
      (handleStartTimeChange s v r).1.endTime ∧
    (handleEndTimeChange s v r).1.startTime <
      (handleEndTimeChange s v r).1.endTime := by
  constructor
  · by_cases hv : v ≥ s.endTime <;> simp [handleStartTimeChange, hv] <;> linarith
  · by_cases hv : v ≤ s.startTime <;> simp [handleEndTimeChange, hv] <;> linarith

/-- Witness for `c1_strict_order_preserved` at the initial state and
input 150. -/
theorem c1_strict_order_preserved_witness :
    initialSession.startTime < initialSession.endTime ∧
    (handleStartTimeChange initialSession 150 true).1.startTime <
      (handleStartTimeChange initialSession 150 true).1.endTime := by
  have h : initialSession.startTime < initialSession.endTime := by
    show (0 : ℚ) < 100
    norm_num
  exact ⟨h, (c1_strict_order_preserved initialSession 150 true h).1⟩

/-- C9: `handleStartTimeChange(v)` with `v ≥ endTime` stores
`endTime - 1` (never equal to `endTime`), `handleEndTimeChange(v)` with
`v ≤ startTime` stores `startTime + 1`, and otherwise each setter
stores the given value unchanged. -/
theorem c9_gap_coercion (s : Session) (v : ℚ) (r : Bool) :
    ((v ≥ s.endTime →
        (handleStartTimeChange s v r).1.startTime = s.endTime - 1 ∧
        (handleStartTimeChange s v r).1.startTime ≠ s.endTime) ∧
      (¬ v ≥ s.endTime → (handleStartTimeChange s v r).1.startTime = v)) ∧
    ((v ≤ s.startTime → (handleEndTimeChange s v r).1.endTime = s.startTime + 1) ∧
      (¬ v ≤ s.startTime → (handleEndTimeChange s v r).1.endTime = v)) := by
  refine ⟨⟨fun hv => ⟨?_, ?_⟩, fun hv => ?_⟩, fun hv => ?_, fun hv => ?_⟩ <;>
    simp [handleStartTimeChange, handleEndTimeChange, hv]

/-- Witness for `c9_gap_coercion`: at the initial state, input 150
coerces the start bound to `100 - 1` and input `-3` coerces the end
bound to `0 + 1`. -/
theorem c9_gap_coercion_witness :
    (handleStartTimeChange initialSession 150 true).1.startTime =
      initialSession.endTime - 1 ∧
    (handleEndTimeChange initialSession (-3) true).1.endTime =
      initialSession.startTime + 1 := by
  constructor
  · exact ((c9_gap_coercion initialSession 150 true).1.1 (by norm_num [initialSession])).1
  · exact (c9_gap_coercion initialSession (-3) true).2.1 (by norm_num [initialSession])

/-- C2 (counterexample): with a trim already in flight
(`loading = true`) and a file present, a second call to `handleTrim`
(and to `handleShare`) still dispatches the engine invocation — the
in-flight flag is not consulted before initiating the operation. -/
theorem c2_counterexample :
    busySession.loading = true ∧
    (handleTrim busySession okEnv).engineInvoked = true ∧
    (handleShare busySession okEnv).engineInvoked = true := by
  exact ⟨rfl, rfl, rfl⟩

/-- C2 (amended): `handleTrim` and `handleShare` guard only on the
presence of `currentFile`; the in-flight flag is never consulted, so
whether the engine invocation is dispatched is independent of
`loading`, and a second call while one is in flight is dispatched
(not rejected) whenever a file is present and the bootstrap steps
succeed. -/
theorem c2_no_inflight_guard (s : Session) (env : EngineEnv) (b : Bool) :
    (handleTrim { s with loading := b } env).engineInvoked =
      (handleTrim s env).engineInvoked ∧
    (handleShare { s with loading := b } env).engineInvoked =
      (handleShare s env).engineInvoked ∧
    (handleTrim s env).engineInvoked =
      (s.currentFile.isSome && env.loadOk && env.writeOk) ∧
    (handleShare s env).engineInvoked =
      (s.currentFile.isSome && env.loadOk && env.writeOk) := by
  refine ⟨?_, ?_, handleTrim_engineInvoked_eq s env, handleShare_engineInvoked_eq s env⟩
  · rw [handleTrim_engineInvoked_eq, handleTrim_engineInvoked_eq]
  · rw [handleShare_engineInvoked_eq, handleShare_engineInvoked_eq]

/-- An environment in which `ffmpeg.exec` returns exit code 1 but a
non-empty byte buffer is still readable at the output name (e.g. a
stale `output.mp4` left in the shared virtual filesystem by an earlier
successful run). -/
def staleOutputEnv : EngineEnv := { okEnv with exitCode := 1 }

/-- An environment in which `ffmpeg.exec` returns exit code 1 and the
output buffer reads back empty. -/
def emptyOutputEnv : EngineEnv := { okEnv with exitCode := 1, readResult := some [] }

/-- C3 (counterexample): in share mode a non-zero engine exit indicator
is NOT treated as failure: `handleShare` never inspects the exit code,
so with exit code 1 and a readable non-empty buffer it delivers and
surfaces no error. -/
theorem c3_counterexample :
    staleOutputEnv.exitCode ≠ 0 ∧
    (handleShare readySession staleOutputEnv).outcome = Outcome.delivered ∧
    (handleShare readySession staleOutputEnv).outcome.isError = false := by
  refine ⟨by decide, rfl, rfl⟩

/-- C3 (amended): in download mode (`handleTrim`) a non-zero exit
indicator is treated as failure, and in both modes an empty output
buffer is treated as failure; but `handleShare` ignores the exit
indicator entirely (its result is invariant under changing the exit
code), so only the download mode satisfies the exit-code half of the
claim. -/
theorem c3_failure_detection (s : Session) (env : EngineEnv)
    (h : s.currentFile.isSome = true) :
    (env.exitCode ≠ 0 → (handleTrim s env).outcome.isError = true) ∧
    (env.readResult = some [] →
      (handleTrim s env).outcome.isError = true ∧
      (handleShare s env).outcome.isError = true) ∧
    (∀ e : Int, handleShare s { env with exitCode := e } = handleShare s env) := by
  obtain ⟨file, url, dur, st, et, ld, c, a⟩ := s
  rcases file with _ | f
  · simp at h
  obtain ⟨lo, wo, ec, rr, ssup, sres⟩ := env
  refine ⟨fun hec => ?_, fun hrr => ?_, fun e => rfl⟩
  · cases lo <;> cases wo <;>
      simp [handleTrim, Outcome.isError, hec]
  · simp only [EngineEnv.mk.injEq] at hrr
    subst hrr
    cases lo <;> cases wo <;> by_cases hec : ec = 0 <;>
      simp [handleTrim, handleShare, Outcome.isError, hec]

/-- Witness for `c3_failure_detection`: with a file present, exit code
1 and an empty output buffer, both modes surface an error. -/
theorem c3_failure_detection_witness :
    readySession.currentFile.isSome = true ∧
    (handleTrim readySession emptyOutputEnv).outcome.isError = true ∧
    (handleShare readySession emptyOutputEnv).outcome.isError = true := by
  exact ⟨rfl, (c3_failure_detection readySession emptyOutputEnv rfl).2.1 rfl⟩

/-- C4: every execution of `handleTrim` / `handleShare` that sets
`loading` to true (exactly the executions in which a file is present)
settles with `loading = false`, on every path — bootstrap failure,
write failure, non-zero exit, read failure, empty output, rejected
share, and success — because the reset sits in the `finally` block. -/
theorem c4_loading_cleared (s : Session) (env : EngineEnv)
    (h : s.currentFile.isSome = true) :
    (handleTrim s env).setLoadingTrue = true ∧
    (handleTrim s env).session.loading = false ∧
    (handleShare s env).setLoadingTrue = true ∧
    (handleShare s env).session.loading = false := by
  obtain ⟨file, url, dur, st, et, ld, c, a⟩ := s
  rcases file with _ | f
  · simp at h
  obtain ⟨lo, wo, ec, rr, ssup, sres⟩ := env
  refine ⟨?_, ?_, ?_, ?_⟩ <;>
    cases lo <;> cases wo <;> rcases rr with _ | data <;>
    simp only [handleTrim, handleShare] <;>
    first
      | rfl
      | (split_ifs <;> rfl)

/-- Witness for `c4_loading_cleared`: starting from the ready session,
both a successful run and an empty-output failing run settle with
`loading = false`. -/
theorem c4_loading_cleared_witness :
    (handleTrim readySession okEnv).session.loading = false ∧
    (handleShare readySession okEnv).session.loading = false := by
  exact ⟨(c4_loading_cleared readySession okEnv rfl).2.1,
    (c4_loading_cleared readySession okEnv rfl).2.2.2⟩

/-- A newly selected video file, distinct from `sampleVideo`. -/
def newVideo : VFile := { name := "new.mov", size := 2048, fileType := "video/quicktime" }

/-- C5 (counterexample): from a session whose bounds are `(25, 75)`,
selecting a new video file and receiving the next metadata-load event
leaves `startFraction = 25`: only `endFraction` is reset to 100,
`startFraction` keeps the value held before the new file was
selected. -/
theorem c5_counterexample :
    readySession.startTime = 25 ∧
    (handleLoadedMetadata (handleFileChange readySession (some newVideo) 7).1 true 60).startTime = 25 ∧
    (handleLoadedMetadata (handleFileChange readySession (some newVideo) 7).1 true 60).startTime ≠ 0 ∧
    (handleLoadedMetadata (handleFileChange readySession (some newVideo) 7).1 true 60).endTime = 100 := by
  refine ⟨rfl, rfl, ?_, rfl⟩
  have h : (handleLoadedMetadata (handleFileChange readySession (some newVideo) 7).1 true 60).startTime = 25 := rfl
  rw [h]
  norm_num

/-- C5 (amended): after a successful file selection followed by the
next metadata-load event, `endFraction` is reset to 100 and the new
duration and file are recorded, but `startFraction` retains whatever
value it held before the selection. -/
theorem c5_metadata_resets_end_only (s : Session) (f : VFile) (u : Nat) (d : ℚ)
    (hf : strStartsWith f.fileType "video/" = true) :
    (handleLoadedMetadata (handleFileChange s (some f) u).1 true d).endTime = 100 ∧
    (handleLoadedMetadata (handleFileChange s (some f) u).1 true d).startTime = s.startTime ∧
    (handleLoadedMetadata (handleFileChange s (some f) u).1 true d).currentFile = some f ∧
    (handleLoadedMetadata (handleFileChange s (some f) u).1 true d).videoDuration = d := by
  simp [handleFileChange, handleLoadedMetadata, hf]

/-- Witness for `c5_metadata_resets_end_only` at the ready session and
`sampleVideo`. -/
theorem c5_metadata_resets_end_only_witness :
    strStartsWith sampleVideo.fileType "video/" = true ∧
    (handleLoadedMetadata (handleFileChange readySession (some sampleVideo) 7).1 true 60).endTime = 100 := by
  exact ⟨by decide, (c5_metadata_resets_end_only readySession sampleVideo 7 60 (by decide)).1⟩

/-- An environment in which sharing is supported but the share promise
is rejected (e.g. the user dismisses the share sheet). -/
def shareRejectedEnv : EngineEnv := { okEnv with shareResolves := false }

/-- An environment in which sharing of file payloads is unsupported. -/
def shareUnsupportedEnv : EngineEnv := { okEnv with shareSupported := false }

/-- C6 (counterexample): when the native share interface is supported
but the share promise is rejected, `handleShare` surfaces an error and
performs no client-side save: the rejected-share case does not fall
back to a save. -/
theorem c6_counterexample :
    shareRejectedEnv.shareSupported = true ∧
    shareRejectedEnv.shareResolves = false ∧
    (handleShare readySession shareRejectedEnv).outcome.isError = true ∧
    (handleShare readySession shareRejectedEnv).effects.filter Effect.isSave = [] := by
  exact ⟨rfl, rfl, rfl, rfl⟩

/-- C6 (amended): for a share-mode run that produces a valid output
artifact, the fallback to a client-side save happens exactly when the
native share interface is unsupported for the file payload; when the
share interface is supported but the share is rejected, the operation
surfaces an error and performs no save. -/
theorem c6_fallback_only_when_unsupported (s : Session) (env : EngineEnv) (f : VFile)
    (hf : s.currentFile = some f) (hl : env.loadOk = true) (hw : env.writeOk = true)
    (data : List Nat) (hr : env.readResult = some data) (hd : data ≠ []) :
    (env.shareSupported = false →
      (handleShare s env).outcome = Outcome.delivered ∧
      Effect.saveAs ("trimmed-" ++ f.name) ∈ (handleShare s env).effects) ∧
    (env.shareSupported = true → env.shareResolves = false →
      (handleShare s env).outcome.isError = true ∧
      (handleShare s env).effects.filter Effect.isSave = []) := by
  obtain ⟨file, url, dur, st, et, ld, c, a⟩ := s
  obtain ⟨lo, wo, ec, rr, ssup, sres⟩ := env
  simp only [EngineEnv.mk.injEq] at hl hw hr
  cases hf
  subst hl hw hr
  constructor
  · intro hs
    subst hs
    simp [handleShare, List.length_eq_zero, hd, Effect.isSave]
  · intro hs hres
    subst hs hres
    simp [handleShare, List.length_eq_zero, hd, Effect.isSave, Outcome.isError]

/-- Witness for `c6_fallback_only_when_unsupported`: with share
unsupported and a valid artifact, the run delivers via a save of the
trimmed file. -/
theorem c6_fallback_only_when_unsupported_witness :
    (handleShare readySession shareUnsupportedEnv).outcome = Outcome.delivered ∧
    Effect.saveAs ("trimmed-" ++ sampleVideo.name) ∈
      (handleShare readySession shareUnsupportedEnv).effects := by
  exact (c6_fallback_only_when_unsupported readySession shareUnsupportedEnv sampleVideo
    rfl rfl rfl [1, 2, 3] rfl (by simp)).1 rfl

/-- C7 (counterexample): the CDN variant of `loadFFmpeg` makes its one
and only load attempt against `https://cdn.jsdelivr.net/...` — a
third-party network location, not a same-origin one. -/
theorem c7_counterexample :
    loadAttemptsCdnVariant = [cdnBaseURL] ∧
    isSameOriginURL cdnBaseURL = false ∧
    strStartsWith cdnBaseURL "https://cdn.jsdelivr.net" = true := by
  exact ⟨rfl, by decide, by decide⟩

/-- C7 (amended): the self-hosted variant of `loadFFmpeg` makes a
single load attempt and it is same-origin (`/ffmpeg`); the CDN variant
instead makes its single attempt against a third-party network
location. -/
theorem c7_selfhosted_variant :
    loadAttemptsSelfHostedVariant = [selfHostedBaseURL] ∧
    loadAttemptsSelfHostedVariant.all isSameOriginURL = true ∧
    isSameOriginURL selfHostedBaseURL = true ∧
    isSameOriginURL cdnBaseURL = false := by
  exact ⟨rfl, by decide, by decide, by decide⟩

/-- C8: after `handleClear`, every field the claim enumerates equals
its value in the initial empty session — no file, no preview URL
(which is revoked, not left dangling), duration 0, bounds `(0, 100)`,
both visibility flags false — from any starting state. -/
theorem c8_clear_resets (s : Session) :
    (handleClear s).1.currentFile = initialSession.currentFile ∧
    (handleClear s).1.currentUrl = initialSession.currentUrl ∧
    (handleClear s).1.videoDuration = initialSession.videoDuration ∧
    (handleClear s).1.startTime = initialSession.startTime ∧
    (handleClear s).1.endTime = initialSession.endTime ∧
    (handleClear s).1.showActions = initialSession.showActions ∧
    (handleClear s).1.showTrimControls = initialSession.showTrimControls ∧
    (∀ u : Nat, s.currentUrl = some u → Effect.revokeURL u ∈ (handleClear s).2) := by
  refine ⟨rfl, rfl, rfl, rfl, rfl, rfl, rfl, fun u hu => ?_⟩
  simp [handleClear, hu]

/-- Witness for `c8_clear_resets` at the ready session (whose preview
URL token is 0). -/
theorem c8_clear_resets_witness :
    (handleClear readySession).1.startTime = initialSession.startTime ∧
    Effect.revokeURL 0 ∈ (handleClear readySession).2 := by
  exact ⟨(c8_clear_resets readySession).2.2.2.1,
    (c8_clear_resets readySession).2.2.2.2.2.2.2 0 rfl⟩

/-- C10: with no file selected, `handleTrim` and `handleShare` return
immediately as silent no-ops: the session is unchanged (`loading` is
never set true), the engine is never invoked, and no effect (in
particular no error alert) is produced. -/
theorem c10_no_file_noop (s : Session) (env : EngineEnv)
    (h : s.currentFile = none) :
    handleTrim s env =
      { session := s, setLoadingTrue := false, engineInvoked := false
        outcome := Outcome.noFile, effects := [] } ∧
    handleShare s env =
      { session := s, setLoadingTrue := false, engineInvoked := false
        outcome := Outcome.noFile, effects := [] } := by
  obtain ⟨file, url, dur, st, et, ld, c, a⟩ := s
  simp only [Session.mk.injEq] at h
  subst h
  exact ⟨rfl, rfl⟩

/-- Witness for `c10_no_file_noop` at the initial session. -/
theorem c10_no_file_noop_witness :
    handleTrim initialSession okEnv =
      { session := initialSession, setLoadingTrue := false, engineInvoked := false
        outcome := Outcome.noFile, effects := [] } ∧
    handleShare initialSession okEnv =
      { session := initialSession, setLoadingTrue := false, engineInvoked := false
        outcome := Outcome.noFile, effects := [] } := by
  exact c10_no_file_noop initialSession okEnv rfl
